import Mathlib

/-!
Shallow embedding of `tools/tag_release.py` from the hdl-modules repository.

The script drives one release: it verifies preconditions (clean working
tree, non-empty unreleased notes, tag not present, version greater than all
existing tags), moves `release_notes/unreleased.rst` to
`release_notes/<version>.rst`, recreates `unreleased.rst` with a fixed
placeholder, stages both files, commits, and tags.

Modelling choices:
* The file system is restricted to the `release_notes` directory and is an
  association list from file name to content.  The git repository is three
  snapshots (working tree, staged index, HEAD tree) plus a commit list
  (messages, oldest first) and a tag list (name and index of the target
  commit in the commit list).
* `Repo.is_dirty()` (GitPython, with its default arguments) is dirty when
  the index differs from HEAD or a tracked (= staged) file differs between
  working tree and index; untracked files do not count.
* `sys.exit(msg)` is the `Res.exit` outcome (the process terminates with a
  non-zero status and the diagnostic `msg`); an uncaught Python exception
  (RuntimeError, IndexError, InvalidVersion, FileNotFoundError) is the
  `Res.err` outcome.  Both carry the state at the moment of termination.
* `packaging.version.parse` is modelled on the grammar the tool relies on:
  dot-separated numeric release components with an optional `a`/`b`/`rc`
  pre-release suffix; comparison pads release tuples with zeros and orders
  a pre-release below the corresponding plain release, as `packaging` does.
  Strings outside this grammar are modelled as a parse failure.
* Tag names are strings (per the spec's collaborator interface); the
  script's `existing_tag.split("v")[1]` is modelled by a faithful embedding
  of Python's `str.split` with a one-character separator.
* Path strings are abbreviated to file names inside the release-notes
  directory (the script's absolute paths depend on ambient environment
  variables that play no role in any claim).
-/

namespace TagRelease

/-- Python `str.split` with a one-character separator: split on every
occurrence, keeping empty pieces (`"".split` gives `[""]`). -/
def pySplitChar (sep : Char) : List Char → List (List Char)
  | [] => [[]]
  | c :: cs =>
    if c = sep then [] :: pySplitChar sep cs
    else
      match pySplitChar sep cs with
      | [] => [[c]]
      | p :: ps => (c :: p) :: ps

/-- Numeric value of a digit string, as Python `int` (leading zeros allowed). -/
def digitsVal (cs : List Char) : Nat :=
  cs.foldl (fun n c => n * 10 + (c.toNat - 48)) 0

/-- Longest digit prefix and the remainder. -/
def takeDigits : List Char → List Char × List Char
  | [] => ([], [])
  | c :: cs =>
    if c.isDigit then
      let r := takeDigits cs
      (c :: r.1, r.2)
    else ([], c :: cs)

/-- A parsed version: release components plus an optional pre-release
`(phase, number)` with phase `0 = a`, `1 = b`, `2 = rc`. -/
structure PyVersion where
  release : List Nat
  pre : Option (Nat × Nat)
deriving DecidableEq, Repr

/-- Parse the dot-separated numeric release segment; returns the components
and the unconsumed remainder.  Fuel-driven recursion (the fuel is an upper
bound on the number of components). -/
def parseReleaseAux : Nat → List Char → Option (List Nat × List Char)
  | 0, _ => none
  | fuel + 1, cs =>
    let d := takeDigits cs
    if d.1.isEmpty then none
    else
      match d.2 with
      | '.' :: rest =>
        match parseReleaseAux fuel rest with
        | some (ns, r) => some (digitsVal d.1 :: ns, r)
        | none => none
      | rest => some ([digitsVal d.1], rest)

/-- Parse the optional pre-release suffix (`a`/`b`/`rc` followed by digits). -/
def parsePre (cs : List Char) : Option (Option (Nat × Nat)) :=
  match cs with
  | [] => some none
  | 'r' :: 'c' :: rest =>
    if rest.isEmpty ∨ ¬ rest.all Char.isDigit then none
    else some (some (2, digitsVal rest))
  | 'a' :: rest =>
    if rest.isEmpty ∨ ¬ rest.all Char.isDigit then none
    else some (some (0, digitsVal rest))
  | 'b' :: rest =>
    if rest.isEmpty ∨ ¬ rest.all Char.isDigit then none
    else some (some (1, digitsVal rest))
  | _ => none

/-- Model of `packaging.version.parse` on the grammar the tool relies on;
`none` models an `InvalidVersion` exception. -/
def pyParse (s : String) : Option PyVersion :=
  match parseReleaseAux (s.data.length + 1) s.data with
  | none => none
  | some (rel, rest) =>
    match parsePre rest with
    | none => none
    | some p => some ⟨rel, p⟩

/-- All remaining release components are zero. -/
def allZero : List Nat → Bool
  | [] => true
  | a :: as => a == 0 && allZero as

/-- Compare release tuples, padding the shorter one with zeros
(`packaging` semantics: `1.3 == 1.3.0`). -/
def cmpRelease : List Nat → List Nat → Ordering
  | [], bs => if allZero bs then .eq else .lt
  | a :: as, [] => if allZero (a :: as) then .eq else .gt
  | a :: as, b :: bs =>
    if a < b then .lt else if b < a then .gt else cmpRelease as bs

/-- Compare pre-release markers: a pre-release sorts below the plain
release with the same release tuple. -/
def cmpPre : Option (Nat × Nat) → Option (Nat × Nat) → Ordering
  | none, none => .eq
  | none, some _ => .gt
  | some _, none => .lt
  | some a, some b =>
    if a.1 < b.1 then .lt else if b.1 < a.1 then .gt
    else if a.2 < b.2 then .lt else if b.2 < a.2 then .gt else .eq

/-- Total comparison of parsed versions. -/
def pyCmp (v w : PyVersion) : Ordering :=
  match cmpRelease v.release w.release with
  | .eq => cmpPre v.pre w.pre
  | o => o

/-- `v <= w` on parsed versions, the comparison the script performs. -/
def pyLe (v w : PyVersion) : Bool :=
  match pyCmp v w with
  | .gt => false
  | _ => true

/-- File system of the release-notes directory: file name to content. -/
abbrev FS := List (String × String)

def fsLookup (fs : FS) (k : String) : Option String :=
  match fs with
  | [] => none
  | p :: rest => if p.1 = k then some p.2 else fsLookup rest k

def fsSet (fs : FS) (k v : String) : FS :=
  (k, v) :: fs.filter (fun p => p.1 != k)

def fsRemove (fs : FS) (k : String) : FS :=
  fs.filter (fun p => p.1 != k)

def fsKeys (fs : FS) : List String := fs.map Prod.fst

/-- Extensional equality of two file snapshots (same content at every key
of either). -/
def fsEqB (a b : FS) : Bool :=
  (fsKeys a ++ fsKeys b).all (fun k => fsLookup a k == fsLookup b k)

/-- One git repository state: working tree, staged index, HEAD tree,
commit messages (oldest first) and tags (name, target commit index). -/
structure GitState where
  tree : FS
  index : FS
  head : FS
  commits : List String
  tags : List (String × Nat)
deriving DecidableEq, Repr

def tagNames (s : GitState) : List String := s.tags.map Prod.fst

/-- A tracked (staged) file differs between working tree and index. -/
def workingTreeDirty (s : GitState) : Bool :=
  (fsKeys s.index).any (fun k => !(fsLookup s.tree k == fsLookup s.index k))

/-- `Repo.is_dirty()` with GitPython's default arguments: staged changes
against HEAD, or unstaged changes to tracked files; untracked files do not
count. -/
def is_dirty (s : GitState) : Bool :=
  !(fsEqB s.index s.head) || workingTreeDirty s

/-- Outcome of a step of the script: normal continuation, `sys.exit` with
a diagnostic (non-zero process status), or an uncaught exception.  Every
outcome carries the repository state at that moment. -/
inductive Res (α : Type) where
  | ok (a : α) (s : GitState)
  | exit (msg : String) (s : GitState)
  | err (msg : String) (s : GitState)
deriving DecidableEq, Repr

def Res.state {α : Type} : Res α → GitState
  | .ok _ s => s
  | .exit _ s => s
  | .err _ s => s

/-- Python `x in l` on a list of strings. -/
def memB (x : String) (l : List String) : Bool :=
  l.any (fun y => y == x)

/-- `UNRELEASED_EMPTY` from the script. -/
def UNRELEASED_EMPTY : String := "Nothing here yet.\n"

/-- The unreleased notes file name (`release_notes/unreleased.rst`). -/
def unreleasedFile : String := "unreleased.rst"

/-- The versioned notes file name (`release_notes/<version>.rst`). -/
def versionFile (version : String) : String := version ++ ".rst"

/-- The script's `existing_tag.split("v")[1]`: `none` models the
IndexError raised when the tag name contains no `v` at all. -/
def existingVersionOf (tag : String) : Option String :=
  ((pySplitChar 'v' tag.data).map (fun cs => String.mk cs))[1]?

/-- The tag loop of `verify_new_version_number`: duplicate-tag check, then
suffix extraction, parse, and ordering check, per existing tag in order. -/
def checkTags (new_version new_git_tag : String) (s : GitState) :
    List (String × Nat) → Res Unit
  | [] => .ok () s
  | t :: rest =>
    if new_git_tag = t.1 then
      .exit ("Git release tag already exists: " ++ new_git_tag) s
    else
      match existingVersionOf t.1 with
      | none => .err "IndexError: list index out of range" s
      | some existing_version =>
        match pyParse new_version with
        | none => .err ("InvalidVersion: " ++ new_version) s
        | some pn =>
          match pyParse existing_version with
          | none => .err ("InvalidVersion: " ++ existing_version) s
          | some pe =>
            if pyLe pn pe then
              .exit ("New version " ++ new_version ++
                " is not greater than existing tag " ++ t.1) s
            else
              checkTags new_version new_git_tag s rest

/-- `verify_new_version_number(repo, new_version)`. -/
def verify_new_version_number (new_version : String) (s : GitState) :
    Res String :=
  if is_dirty s then .exit "Must make release from clean repo" s
  else
    match fsLookup s.tree unreleasedFile with
    | none => .err "FileNotFoundError: unreleased.rst" s
    | some content =>
      if content = "" ∨ content = UNRELEASED_EMPTY then
        .exit ("The unreleased notes file " ++ unreleasedFile ++
          " should not be empty") s
      else
        match checkTags new_version ("v" ++ new_version) s s.tags with
        | .ok _ s1 => .ok ("v" ++ new_version) s1
        | .exit m s1 => .exit m s1
        | .err m s1 => .err m s1

/-- `repo.index.add(path)`: stage the working-tree content of `path`. -/
def indexAdd (path : String) (s : GitState) : Res Unit :=
  match fsLookup s.tree path with
  | none => .err ("FileNotFoundError: cannot stage " ++ path) s
  | some c => .ok () { s with index := fsSet s.index path c }

/-- `move_release_notes(repo, version)`: refuse if the versioned file
exists (RuntimeError), else move the unreleased file to the versioned
name, recreate the unreleased file with the placeholder, and stage both. -/
def move_release_notes (version : String) (s : GitState) : Res Unit :=
  let version_rst := versionFile version
  if (fsLookup s.tree version_rst).isSome then
    .err ("Release notes already exist: " ++ version_rst) s
  else
    match fsLookup s.tree unreleasedFile with
    | none => .err "FileNotFoundError: move source missing" s
    | some content =>
      let tree1 := fsSet (fsRemove s.tree unreleasedFile) version_rst content
      let tree2 := fsSet tree1 unreleasedFile UNRELEASED_EMPTY
      let s1 : GitState := { s with tree := tree2 }
      match indexAdd unreleasedFile s1 with
      | .ok _ s2 =>
        match indexAdd version_rst s2 with
        | .ok _ s3 => .ok () s3
        | .exit m s3 => .exit m s3
        | .err m s3 => .err m s3
      | .exit m s2 => .exit m s2
      | .err m s2 => .err m s2

/-- `make_commit(repo, commit_message)`: commit the index, then exit
fatally if the working tree is still dirty. -/
def make_commit (commit_message : String) (s : GitState) : Res Unit :=
  let s1 : GitState :=
    { s with head := s.index, commits := s.commits ++ [commit_message] }
  if is_dirty s1 then .exit "Git commit failed" s1 else .ok () s1

/-- `repo.create_tag(name)`: raises (GitCommandError) if the tag already
exists, else appends a tag pointing at the newest commit. -/
def create_tag (name : String) (s : GitState) : Res Unit :=
  if memB name (tagNames s) then
    .err ("GitCommandError: tag " ++ name ++ " already exists") s
  else
    .ok () { s with tags := s.tags ++ [(name, s.commits.length - 1)] }

/-- `commit_and_tag_release(repo, version, git_tag)`. -/
def commit_and_tag_release (version git_tag : String) (s : GitState) :
    Res Unit :=
  match make_commit ("Release version " ++ version) s with
  | .ok _ s1 =>
    match create_tag git_tag s1 with
    | .ok _ s2 =>
      if memB git_tag (tagNames s2) then .ok () s2
      else .exit "Git tag failed" s2
    | .exit m s2 => .exit m s2
    | .err m s2 => .err m s2
  | .exit m s1 => .exit m s1
  | .err m s1 => .err m s1

/-- `main()`: verify, move the notes, commit and tag. -/
def main (release_version : String) (s : GitState) : Res Unit :=
  match verify_new_version_number release_version s with
  | .ok git_tag s1 =>
    match move_release_notes release_version s1 with
    | .ok _ s2 => commit_and_tag_release release_version git_tag s2
    | .exit m s2 => .exit m s2
    | .err m s2 => .err m s2
  | .exit m s1 => .exit m s1
  | .err m s1 => .err m s1

/-! ### Derived definitions used in specifications -/

/-- The conditions under which one existing tag lets the candidate pass
the tag loop: different name, a suffix after `split("v")[1]` that parses,
and a parsed value strictly below the candidate. -/
def tagPasses (pn : PyVersion) (newTag : String) (t : String × Nat) : Prop :=
  newTag ≠ t.1 ∧
    ∃ es pe, existingVersionOf t.1 = some es ∧ pyParse es = some pe ∧
      pyCmp pn pe = .gt

/-- The repository state after `move_release_notes` succeeds on a state
whose unreleased notes read `content`: the versioned file holds `content`,
the unreleased file holds the placeholder, and both are staged. -/
def movedState (version content : String) (s : GitState) : GitState :=
  { s with
    tree := fsSet (fsSet (fsRemove s.tree unreleasedFile)
      (versionFile version) content) unreleasedFile UNRELEASED_EMPTY
    index := fsSet (fsSet s.index unreleasedFile UNRELEASED_EMPTY)
      (versionFile version) content }

/-- The repository state right after `make_commit` inside
`commit_and_tag_release`: HEAD set to the staged index, one new commit with
the release message. -/
def commitState (version : String) (s : GitState) : GitState :=
  { s with
    head := s.index
    commits := s.commits ++ ["Release version " ++ version] }

/-- The repository state after one fully successful release of `version`
from a state whose unreleased notes read `content`: the moved and staged
files, one new commit, and one new tag pointing at that commit. -/
def releasedState (version content : String) (s : GitState) : GitState :=
  { movedState version content s with
    head := (movedState version content s).index
    commits := s.commits ++ ["Release version " ++ version]
    tags := s.tags ++ [("v" ++ version, s.commits.length)] }

/-- A clean repository with one prior release `v1.0.0` and non-trivial
unreleased notes; used by witnesses and counterexamples. -/
def demoRepo : GitState :=
  { tree := [("unreleased.rst", "Fixed a bug.\n")]
  , index := [("unreleased.rst", "Fixed a bug.\n")]
  , head := [("unreleased.rst", "Fixed a bug.\n")]
  , commits := ["initial"]
  , tags := [("v1.0.0", 0)] }

/-- `demoRepo` with a stale, committed-elsewhere `1.1.0.rst` already in the
working tree (untracked files do not make `is_dirty` true). -/
def strayFileRepo : GitState :=
  { demoRepo with tree := demoRepo.tree ++ [("1.1.0.rst", "stale")] }

/-- `demoRepo` with a larger tag enumerated before the duplicate. -/
def maskedDupRepo : GitState :=
  { demoRepo with tags := [("v2.0.0", 0), ("v1.0.0", 0)] }

/-- `demoRepo` with the unreleased notes emptied in the working tree only,
so the tree is dirty and the notes file is empty. -/
def dirtyEmptyRepo : GitState :=
  { demoRepo with tree := [("unreleased.rst", "")] }

/-! ### File-system lemmas -/

theorem fsLookup_fsSet_self (fs : FS) (k v : String) :
    fsLookup (fsSet fs k v) k = some v := by
  simp [fsSet, fsLookup]

theorem fsLookup_filter_ne (fs : FS) (k k2 : String) (h : k2 ≠ k) :
    fsLookup (fs.filter (fun p => p.1 != k)) k2 = fsLookup fs k2 := by
  induction fs with
  | nil => rfl
  | cons p rest ih =>
    by_cases hp : p.1 = k
    · have h1 : (p.1 != k) = false := by simp [hp]
      have h2 : p.1 ≠ k2 := by rw [hp]; exact fun he => h he.symm
      simp [List.filter, h1, fsLookup, h2, ih]
    · have h1 : (p.1 != k) = true := by simp [hp]
      have h2 : (k2 != k) = true := by simp [h]
      by_cases hq : p.1 = k2 <;> simp [List.filter, h1, h2, fsLookup, hq, ih]

theorem fsLookup_fsSet_ne (fs : FS) (k v k2 : String) (h : k2 ≠ k) :
    fsLookup (fsSet fs k v) k2 = fsLookup fs k2 := by
  have h1 : k ≠ k2 := fun he => h he.symm
  simp only [fsSet, fsLookup]
  rw [if_neg h1]
  exact fsLookup_filter_ne fs k k2 h

theorem fsLookup_fsRemove_ne (fs : FS) (k k2 : String) (h : k2 ≠ k) :
    fsLookup (fsRemove fs k) k2 = fsLookup fs k2 :=
  fsLookup_filter_ne fs k k2 h

theorem mem_fsKeys_fsSet (fs : FS) (k v x : String)
    (h : x ∈ fsKeys (fsSet fs k v)) : x = k ∨ x ∈ fsKeys fs := by
  simp only [fsKeys, fsSet, List.map_cons, List.mem_cons] at h
  rcases h with h | h
  · exact Or.inl h
  · right
    simp only [List.mem_map] at h
    rcases h with ⟨p, hp, hx⟩
    exact List.mem_map.mpr ⟨p, (List.mem_filter.mp hp).1, hx⟩

theorem fsEqB_refl (fs : FS) : fsEqB fs fs = true := by
  simp [fsEqB, List.all_eq_true]

/-! ### Dirtiness lemmas -/

theorem is_dirty_false_iff (s : GitState) :
    is_dirty s = false ↔
      fsEqB s.index s.head = true ∧ workingTreeDirty s = false := by
  simp [is_dirty]

theorem workingTreeDirty_false_of (s : GitState)
    (h : ∀ k ∈ fsKeys s.index, fsLookup s.tree k = fsLookup s.index k) :
    workingTreeDirty s = false := by
  simp only [workingTreeDirty, List.any_eq_false]
  intro k hk
  simp [h k hk]

theorem lookup_eq_of_not_workingTreeDirty (s : GitState)
    (h : workingTreeDirty s = false) (k : String) (hk : k ∈ fsKeys s.index) :
    fsLookup s.tree k = fsLookup s.index k := by
  simp only [workingTreeDirty, List.any_eq_false] at h
  have := h k hk
  simpa using this

theorem is_dirty_set_tags (s : GitState) (t : List (String × Nat)) :
    is_dirty { s with tags := t } = is_dirty s := rfl

/-! ### Membership test used for `in` on tag collections -/

theorem memB_eq_true_iff (x : String) (l : List String) :
    memB x l = true ↔ x ∈ l := by
  simp [memB, List.any_eq_true, beq_iff_eq]

/-! ### checkTags lemmas -/

theorem checkTags_shape (nv tag : String) (s : GitState) :
    ∀ l, checkTags nv tag s l = .ok () s ∨
      (∃ m, checkTags nv tag s l = .exit m s) ∨
      (∃ m, checkTags nv tag s l = .err m s) := by
  intro l
  induction l with
  | nil => exact Or.inl rfl
  | cons t rest ih =>
    by_cases h1 : tag = t.1
    · refine Or.inr (Or.inl ⟨"Git release tag already exists: " ++ tag, ?_⟩)
      simp [checkTags, h1]
    · cases he : existingVersionOf t.1 with
      | none =>
        refine Or.inr (Or.inr ⟨"IndexError: list index out of range", ?_⟩)
        simp [checkTags, h1, he]
      | some es =>
        cases hn : pyParse nv with
        | none =>
          refine Or.inr (Or.inr ⟨"InvalidVersion: " ++ nv, ?_⟩)
          simp [checkTags, h1, he, hn]
        | some pn =>
          cases hpe : pyParse es with
          | none =>
            refine Or.inr (Or.inr ⟨"InvalidVersion: " ++ es, ?_⟩)
            simp [checkTags, h1, he, hn, hpe]
          | some pe =>
            by_cases hle : pyLe pn pe = true
            · refine Or.inr (Or.inl ⟨"New version " ++ nv ++
                " is not greater than existing tag " ++ t.1, ?_⟩)
              simp [checkTags, h1, he, hn, hpe, hle]
            · have hstep : checkTags nv tag s (t :: rest) =
                  checkTags nv tag s rest := by
                simp [checkTags, h1, he, hn, hpe, hle]
              rw [hstep]
              exact ih

theorem pyLe_eq_false_of_gt (pn pe : PyVersion) (h : pyCmp pn pe = .gt) :
    pyLe pn pe = false := by
  simp [pyLe, h]

theorem checkTags_ok_of_passes (nv tag : String) (s : GitState)
    (pn : PyVersion) (hn : pyParse nv = some pn) :
    ∀ l, (∀ t ∈ l, tagPasses pn tag t) → checkTags nv tag s l = .ok () s := by
  intro l
  induction l with
  | nil => intro _; rfl
  | cons t rest ih =>
    intro hall
    obtain ⟨hne, es, pe, he, hpe, hgt⟩ := hall t (List.mem_cons_self t rest)
    have hle := pyLe_eq_false_of_gt pn pe hgt
    have hstep : checkTags nv tag s (t :: rest) = checkTags nv tag s rest := by
      simp [checkTags, hne, he, hn, hpe, hle]
    rw [hstep]
    exact ih (fun u hu => hall u (List.mem_cons_of_mem t hu))

theorem checkTags_duplicate (nv tag : String) (s : GitState)
    (pn : PyVersion) (hn : pyParse nv = some pn) :
    ∀ l1 t l2, t.1 = tag → (∀ u ∈ l1, tagPasses pn tag u) →
      checkTags nv tag s (l1 ++ t :: l2) =
        .exit ("Git release tag already exists: " ++ tag) s := by
  intro l1
  induction l1 with
  | nil =>
    intro t l2 ht _
    simp [checkTags, ht.symm]
  | cons u rest ih =>
    intro t l2 ht hall
    obtain ⟨hne, es, pe, he, hpe, hgt⟩ := hall u (List.mem_cons_self u rest)
    have hle := pyLe_eq_false_of_gt pn pe hgt
    have hstep : checkTags nv tag s (u :: (rest ++ t :: l2)) =
        checkTags nv tag s (rest ++ t :: l2) := by
      simp [checkTags, hne, he, hn, hpe, hle]
    rw [List.cons_append, hstep]
    exact ih t l2 ht (fun w hw => hall w (List.mem_cons_of_mem u hw))

/-! ### verify_new_version_number lemmas -/

theorem verify_shape (nv : String) (s : GitState) :
    verify_new_version_number nv s = .ok ("v" ++ nv) s ∨
      (∃ m, verify_new_version_number nv s = .exit m s) ∨
      (∃ m, verify_new_version_number nv s = .err m s) := by
  by_cases hd : is_dirty s = true
  · refine Or.inr (Or.inl ⟨"Must make release from clean repo", ?_⟩)
    simp [verify_new_version_number, hd]
  · cases hu : fsLookup s.tree unreleasedFile with
    | none =>
      refine Or.inr (Or.inr ⟨"FileNotFoundError: unreleased.rst", ?_⟩)
      simp [verify_new_version_number, hd, hu]
    | some content =>
      by_cases hc : content = "" ∨ content = UNRELEASED_EMPTY
      · refine Or.inr (Or.inl ⟨"The unreleased notes file " ++
          unreleasedFile ++ " should not be empty", ?_⟩)
        simp only [verify_new_version_number, hd, Bool.false_eq_true,
          if_false, hu]
        rw [if_pos hc]
      · have hv : verify_new_version_number nv s =
            match checkTags nv ("v" ++ nv) s s.tags with
            | .ok _ s1 => .ok ("v" ++ nv) s1
            | .exit m s1 => .exit m s1
            | .err m s1 => .err m s1 := by
          simp only [verify_new_version_number, hd, Bool.false_eq_true,
            if_false, hu]
          rw [if_neg hc]
        rcases checkTags_shape nv ("v" ++ nv) s s.tags with h | ⟨m, h⟩ | ⟨m, h⟩ <;>
          rw [hv, h]
        · exact Or.inl rfl
        · exact Or.inr (Or.inl ⟨m, rfl⟩)
        · exact Or.inr (Or.inr ⟨m, rfl⟩)

theorem verify_pass (nv : String) (s : GitState) (content : String)
    (hd : is_dirty s = false)
    (hu : fsLookup s.tree unreleasedFile = some content)
    (h1 : content ≠ "") (h2 : content ≠ UNRELEASED_EMPTY)
    (pn : PyVersion) (hn : pyParse nv = some pn)
    (hall : ∀ t ∈ s.tags, tagPasses pn ("v" ++ nv) t) :
    verify_new_version_number nv s = .ok ("v" ++ nv) s := by
  simp only [verify_new_version_number, hd, Bool.false_eq_true, if_false, hu]
  rw [if_neg (by simp [h1, h2]),
    checkTags_ok_of_passes nv ("v" ++ nv) s pn hn s.tags hall]

theorem verify_exit_dirty (nv : String) (s : GitState)
    (hd : is_dirty s = true) :
    verify_new_version_number nv s =
      .exit "Must make release from clean repo" s := by
  simp [verify_new_version_number, hd]

theorem verify_exit_empty (nv : String) (s : GitState) (content : String)
    (hd : is_dirty s = false)
    (hu : fsLookup s.tree unreleasedFile = some content)
    (hc : content = "" ∨ content = UNRELEASED_EMPTY) :
    verify_new_version_number nv s =
      .exit ("The unreleased notes file " ++ unreleasedFile ++
        " should not be empty") s := by
  simp only [verify_new_version_number, hd, Bool.false_eq_true, if_false, hu]
  rw [if_pos hc]

theorem verify_exit_duplicate (nv : String) (s : GitState) (content : String)
    (hd : is_dirty s = false)
    (hu : fsLookup s.tree unreleasedFile = some content)
    (h1 : content ≠ "") (h2 : content ≠ UNRELEASED_EMPTY)
    (pn : PyVersion) (hn : pyParse nv = some pn)
    (l1 : List (String × Nat)) (t : String × Nat) (l2 : List (String × Nat))
    (hsplit : s.tags = l1 ++ t :: l2) (ht : t.1 = "v" ++ nv)
    (hall : ∀ u ∈ l1, tagPasses pn ("v" ++ nv) u) :
    verify_new_version_number nv s =
      .exit ("Git release tag already exists: " ++ ("v" ++ nv)) s := by
  simp only [verify_new_version_number, hd, Bool.false_eq_true, if_false, hu]
  rw [if_neg (by simp [h1, h2]), hsplit,
    checkTags_duplicate nv ("v" ++ nv) s pn hn l1 t l2 ht hall]

/-! ### move_release_notes lemmas -/

theorem versionFile_ne_unreleased (version : String) (s : GitState)
    (content : String)
    (hv : fsLookup s.tree (versionFile version) = none)
    (hu : fsLookup s.tree unreleasedFile = some content) :
    versionFile version ≠ unreleasedFile := by
  intro he
  rw [he, hu] at hv
  exact Option.noConfusion hv

theorem move_ok (version : String) (s : GitState) (content : String)
    (hv : fsLookup s.tree (versionFile version) = none)
    (hu : fsLookup s.tree unreleasedFile = some content) :
    move_release_notes version s = .ok () (movedState version content s) := by
  have hne := versionFile_ne_unreleased version s content hv hu
  have l1 : fsLookup (fsSet (fsSet (fsRemove s.tree unreleasedFile)
      (versionFile version) content) unreleasedFile UNRELEASED_EMPTY)
      unreleasedFile = some UNRELEASED_EMPTY :=
    fsLookup_fsSet_self _ _ _
  have l2 : fsLookup (fsSet (fsSet (fsRemove s.tree unreleasedFile)
      (versionFile version) content) unreleasedFile UNRELEASED_EMPTY)
      (versionFile version) = some content := by
    rw [fsLookup_fsSet_ne _ _ _ _ hne]
    exact fsLookup_fsSet_self _ _ _
  simp only [move_release_notes, hv, Option.isSome_none, Bool.false_eq_true,
    if_false, hu, indexAdd, l1, l2, movedState]

theorem move_exists_err (version : String) (s : GitState)
    (hv : (fsLookup s.tree (versionFile version)).isSome = true) :
    move_release_notes version s =
      .err ("Release notes already exist: " ++ versionFile version) s := by
  simp only [move_release_notes, hv, if_true]

/-! ### commit and tag lemmas -/

theorem make_commit_ok (msg : String) (s : GitState)
    (h : is_dirty { s with
      head := s.index
      commits := s.commits ++ [msg] } = false) :
    make_commit msg s =
      .ok () { s with head := s.index, commits := s.commits ++ [msg] } := by
  simp only [make_commit, h, Bool.false_eq_true, if_false]

theorem make_commit_exit (msg : String) (s : GitState)
    (h : is_dirty { s with
      head := s.index
      commits := s.commits ++ [msg] } = true) :
    make_commit msg s =
      .exit "Git commit failed" { s with
        head := s.index
        commits := s.commits ++ [msg] } := by
  simp only [make_commit, h, if_true]

theorem create_tag_ok (name : String) (s : GitState)
    (h : memB name (tagNames s) = false) :
    create_tag name s =
      .ok () { s with tags := s.tags ++ [(name, s.commits.length - 1)] } := by
  simp only [create_tag, h, Bool.false_eq_true, if_false]

theorem memB_tagNames_append_self (s : GitState) (name : String) (n : Nat) :
    memB name (tagNames { s with tags := s.tags ++ [(name, n)] }) = true := by
  rw [memB_eq_true_iff]
  simp [tagNames]

theorem commit_and_tag_ok (version git_tag : String) (s : GitState)
    (hcl : is_dirty { s with
      head := s.index
      commits := s.commits ++ ["Release version " ++ version] } = false)
    (hmem : memB git_tag (tagNames s) = false) :
    commit_and_tag_release version git_tag s =
      .ok () { s with
        head := s.index
        commits := s.commits ++ ["Release version " ++ version]
        tags := s.tags ++ [(git_tag, s.commits.length)] } := by
  have h1 := make_commit_ok ("Release version " ++ version) s hcl
  have h2 : memB git_tag (tagNames { s with
      head := s.index
      commits := s.commits ++ ["Release version " ++ version] }) = false := hmem
  have h3 := create_tag_ok git_tag _ h2
  have h4 := memB_tagNames_append_self { s with
      head := s.index
      commits := s.commits ++ ["Release version " ++ version] } git_tag
      ((s.commits ++ ["Release version " ++ version]).length - 1)
  simp only [commit_and_tag_release, h1, h3, h4, if_true]
  simp [List.length_append]

/-! ### The successful pipeline -/

theorem movedState_commit_clean (v content : String) (s : GitState)
    (hd : is_dirty s = false)
    (hu : fsLookup s.tree unreleasedFile = some content)
    (hnofile : fsLookup s.tree (versionFile v) = none) :
    is_dirty { movedState v content s with
      head := (movedState v content s).index
      commits := s.commits ++ ["Release version " ++ v] } = false := by
  have hne := versionFile_ne_unreleased v s content hnofile hu
  rw [is_dirty_false_iff]
  refine ⟨fsEqB_refl _, ?_⟩
  apply workingTreeDirty_false_of
  intro k hk
  simp only [movedState] at hk ⊢
  by_cases e1 : k = versionFile v
  · subst e1
    simp only [fsLookup_fsSet_ne _ _ _ _ hne, fsLookup_fsSet_self]
  · by_cases e2 : k = unreleasedFile
    · subst e2
      simp only [fsLookup_fsSet_self, fsLookup_fsSet_ne _ _ _ _ (Ne.symm hne)]
    · have hk3 : k ∈ fsKeys s.index := by
        rcases mem_fsKeys_fsSet _ _ _ _ hk with h | h
        · exact absurd h e1
        · rcases mem_fsKeys_fsSet _ _ _ _ h with h2 | h2
          · exact absurd h2 e2
          · exact h2
      simp only [fsLookup_fsSet_ne _ _ _ _ e1, fsLookup_fsSet_ne _ _ _ _ e2,
        fsLookup_fsRemove_ne _ _ _ e2]
      have hwd : workingTreeDirty s = false := ((is_dirty_false_iff s).mp hd).2
      exact lookup_eq_of_not_workingTreeDirty s hwd k hk3

theorem main_ok (v : String) (s : GitState) (content : String)
    (pv : PyVersion)
    (hd : is_dirty s = false)
    (hu : fsLookup s.tree unreleasedFile = some content)
    (h1 : content ≠ "") (h2 : content ≠ UNRELEASED_EMPTY)
    (hn : pyParse v = some pv)
    (hall : ∀ t ∈ s.tags, tagPasses pv ("v" ++ v) t)
    (hnofile : fsLookup s.tree (versionFile v) = none) :
    main v s = .ok () (releasedState v content s) := by
  have hverify := verify_pass v s content hd hu h1 h2 pv hn hall
  have hmove := move_ok v s content hnofile hu
  have hmem : memB ("v" ++ v) (tagNames (movedState v content s)) = false := by
    rw [Bool.eq_false_iff]
    intro hmm
    rw [memB_eq_true_iff] at hmm
    simp only [movedState, tagNames] at hmm
    obtain ⟨t, ht, he⟩ := List.mem_map.mp hmm
    exact (hall t ht).1 he.symm
  have hcl := movedState_commit_clean v content s hd hu hnofile
  have hcommit := commit_and_tag_ok v ("v" ++ v) (movedState v content s)
    hcl hmem
  simp only [main, hverify, hmove, hcommit, releasedState]
  simp [movedState]

/-! ### Inversion lemmas: what a successful run implies -/

theorem move_ok_inv (v : String) (s s2 : GitState)
    (h : move_release_notes v s = .ok () s2) :
    ∃ content, fsLookup s.tree (versionFile v) = none ∧
      fsLookup s.tree unreleasedFile = some content ∧
      s2 = movedState v content s := by
  by_cases hv : (fsLookup s.tree (versionFile v)).isSome = true
  · rw [move_exists_err v s hv] at h
    exact Res.noConfusion h
  · have hv2 : fsLookup s.tree (versionFile v) = none := by
      cases hx : fsLookup s.tree (versionFile v) with
      | none => rfl
      | some c => rw [hx] at hv; simp at hv
    cases hu : fsLookup s.tree unreleasedFile with
    | none =>
      simp only [move_release_notes, hv2, Option.isSome_none,
        Bool.false_eq_true, if_false, hu] at h
      exact Res.noConfusion h
    | some c =>
      rw [move_ok v s c hv2 hu] at h
      injection h with h1 h2
      exact ⟨c, hv2, rfl, h2.symm⟩

theorem commit_and_tag_ok_inv (v g : String) (s s2 : GitState)
    (h : commit_and_tag_release v g s = .ok () s2) :
    is_dirty s2 = false ∧ s2.tree = s.tree := by
  by_cases hcl : is_dirty { s with
      head := s.index
      commits := s.commits ++ ["Release version " ++ v] } = true
  · have hx := make_commit_exit ("Release version " ++ v) s hcl
    simp only [commit_and_tag_release, hx] at h
    exact Res.noConfusion h
  · have hcl2 := Bool.eq_false_iff.mpr hcl
    have hm := make_commit_ok ("Release version " ++ v) s hcl2
    by_cases hmem : memB g (tagNames { s with
        head := s.index
        commits := s.commits ++ ["Release version " ++ v] }) = true
    · have hct : create_tag g { s with
          head := s.index
          commits := s.commits ++ ["Release version " ++ v] } =
            .err ("GitCommandError: tag " ++ g ++ " already exists")
              { s with
                head := s.index
                commits := s.commits ++ ["Release version " ++ v] } := by
        simp only [create_tag, hmem, if_true]
      simp only [commit_and_tag_release, hm, hct] at h
      exact Res.noConfusion h
    · have hmem2 := Bool.eq_false_iff.mpr hmem
      have hct := create_tag_ok g _ hmem2
      have hfin := memB_tagNames_append_self { s with
          head := s.index
          commits := s.commits ++ ["Release version " ++ v] } g
          ((s.commits ++ ["Release version " ++ v]).length - 1)
      simp only [commit_and_tag_release, hm, hct, hfin, if_true] at h
      injection h with h1 h2
      subst h2
      exact ⟨hcl2, rfl⟩

theorem main_ok_inv (v : String) (s s2 : GitState)
    (h : main v s = .ok () s2) :
    is_dirty s2 = false ∧
      fsLookup s2.tree unreleasedFile = some UNRELEASED_EMPTY := by
  rcases verify_shape v s with hv | ⟨m, hv⟩ | ⟨m, hv⟩
  · simp only [main, hv] at h
    cases hmv : move_release_notes v s with
    | ok a s3 =>
      cases a
      rw [hmv] at h
      obtain ⟨c, _, _, hs3⟩ := move_ok_inv v s s3 hmv
      obtain ⟨hd2, htr⟩ := commit_and_tag_ok_inv v ("v" ++ v) s3 s2 h
      refine ⟨hd2, ?_⟩
      rw [htr, hs3]
      simp only [movedState]
      exact fsLookup_fsSet_self _ _ _
    | exit m s3 => rw [hmv] at h; exact Res.noConfusion h
    | err m s3 => rw [hmv] at h; exact Res.noConfusion h
  · simp only [main, hv] at h
    exact Res.noConfusion h
  · simp only [main, hv] at h
    exact Res.noConfusion h

theorem second_run_exits_empty (v : String) (s s2 : GitState)
    (h : main v s = .ok () s2) :
    main v s2 = .exit ("The unreleased notes file " ++ unreleasedFile ++
      " should not be empty") s2 := by
  obtain ⟨hd2, hu2⟩ := main_ok_inv v s s2 h
  have hv := verify_exit_empty v s2 UNRELEASED_EMPTY hd2 hu2 (Or.inr rfl)
  simp only [main, hv]

/-! ### Tag-name splitting lemmas -/

theorem pySplitChar_cons_sep (sep : Char) (cs : List Char) :
    pySplitChar sep (sep :: cs) = [] :: pySplitChar sep cs := by
  simp [pySplitChar]

theorem pySplitChar_no_sep (sep : Char) (cs : List Char) (h : sep ∉ cs) :
    pySplitChar sep cs = [cs] := by
  induction cs with
  | nil => rfl
  | cons c rest ih =>
    have h1 : ¬ c = sep := fun he => h (by rw [he]; exact List.mem_cons_self _ _)
    have h2 : sep ∉ rest := fun hm => h (List.mem_cons_of_mem c hm)
    simp [pySplitChar, h1, ih h2]

theorem existingVersionOf_append (sfx : String) (h : 'v' ∉ sfx.data) :
    existingVersionOf ("v" ++ sfx) = some sfx := by
  have hd : ("v" ++ sfx).data = 'v' :: sfx.data := by
    rw [String.data_append]
    rfl
  unfold existingVersionOf
  rw [hd, pySplitChar_cons_sep, pySplitChar_no_sep 'v' sfx.data h]
  rfl

/-! ### commit_and_tag_release case analysis -/

theorem commit_and_tag_cases (v g : String) (s : GitState) :
    (is_dirty (commitState v s) = true →
      commit_and_tag_release v g s =
        .exit "Git commit failed" (commitState v s)) ∧
    (is_dirty (commitState v s) = false → memB g (tagNames s) = true →
      commit_and_tag_release v g s =
        .err ("GitCommandError: tag " ++ g ++ " already exists")
          (commitState v s)) ∧
    (is_dirty (commitState v s) = false → memB g (tagNames s) = false →
      commit_and_tag_release v g s =
        .ok () { commitState v s with
          tags := s.tags ++ [(g, s.commits.length)] } ∧
        memB g (tagNames ((commit_and_tag_release v g s).state)) = true) ∧
    ((commit_and_tag_release v g s).state.commits =
      s.commits ++ ["Release version " ++ v]) := by
  have e1 : is_dirty (commitState v s) = true →
      commit_and_tag_release v g s =
        .exit "Git commit failed" (commitState v s) := by
    intro hcl
    have hx : make_commit ("Release version " ++ v) s =
        .exit "Git commit failed" (commitState v s) :=
      make_commit_exit ("Release version " ++ v) s hcl
    simp only [commit_and_tag_release, hx]
  have e2 : is_dirty (commitState v s) = false → memB g (tagNames s) = true →
      commit_and_tag_release v g s =
        .err ("GitCommandError: tag " ++ g ++ " already exists")
          (commitState v s) := by
    intro hcl hmem
    have hm : make_commit ("Release version " ++ v) s =
        .ok () (commitState v s) :=
      make_commit_ok ("Release version " ++ v) s hcl
    have hmem2 : memB g (tagNames (commitState v s)) = true := hmem
    have hct : create_tag g (commitState v s) =
        .err ("GitCommandError: tag " ++ g ++ " already exists")
          (commitState v s) := by
      simp only [create_tag, hmem2, if_true]
    simp only [commit_and_tag_release, hm, hct]
  have e3 : is_dirty (commitState v s) = false → memB g (tagNames s) = false →
      commit_and_tag_release v g s =
        .ok () { commitState v s with
          tags := s.tags ++ [(g, s.commits.length)] } := by
    intro hcl hmem
    exact commit_and_tag_ok v g s hcl hmem
  refine ⟨e1, e2, fun hcl hmem => ⟨e3 hcl hmem, ?_⟩, ?_⟩
  · rw [e3 hcl hmem]
    rw [memB_eq_true_iff]
    simp [Res.state, tagNames, commitState]
  · by_cases hcl : is_dirty (commitState v s) = true
    · rw [e1 hcl]
      rfl
    · have hcl2 := Bool.eq_false_iff.mpr hcl
      by_cases hmem : memB g (tagNames s) = true
      · rw [e2 hcl2 hmem]
        rfl
      · rw [e3 hcl2 (Bool.eq_false_iff.mpr hmem)]
        rfl

/-! ### Exit-message taxonomy of the tag loop -/

theorem checkTags_exit_msg (nv tag : String) (s : GitState) :
    ∀ l m s2, checkTags nv tag s l = .exit m s2 →
      m = "Git release tag already exists: " ++ tag ∨
      ∃ t, m = "New version " ++ nv ++
        " is not greater than existing tag " ++ t := by
  intro l
  induction l with
  | nil => intro m s2 h; exact Res.noConfusion h
  | cons t rest ih =>
    intro m s2 h
    by_cases h1 : tag = t.1
    · have hx : checkTags nv tag s (t :: rest) =
          .exit ("Git release tag already exists: " ++ tag) s := by
        simp [checkTags, h1]
      rw [hx] at h
      injection h with hm hs
      exact Or.inl hm.symm
    · cases he : existingVersionOf t.1 with
      | none =>
        have hx : checkTags nv tag s (t :: rest) =
            .err "IndexError: list index out of range" s := by
          simp [checkTags, h1, he]
        rw [hx] at h
        exact Res.noConfusion h
      | some es =>
        cases hn : pyParse nv with
        | none =>
          have hx : checkTags nv tag s (t :: rest) =
              .err ("InvalidVersion: " ++ nv) s := by
            simp [checkTags, h1, he, hn]
          rw [hx] at h
          exact Res.noConfusion h
        | some pn =>
          cases hpe : pyParse es with
          | none =>
            have hx : checkTags nv tag s (t :: rest) =
                .err ("InvalidVersion: " ++ es) s := by
              simp [checkTags, h1, he, hn, hpe]
            rw [hx] at h
            exact Res.noConfusion h
          | some pe =>
            by_cases hle : pyLe pn pe = true
            · have hx : checkTags nv tag s (t :: rest) =
                  .exit ("New version " ++ nv ++
                    " is not greater than existing tag " ++ t.1) s := by
                simp [checkTags, h1, he, hn, hpe, hle]
              rw [hx] at h
              injection h with hm hs
              exact Or.inr ⟨t.1, hm.symm⟩
            · have hx : checkTags nv tag s (t :: rest) =
                  checkTags nv tag s rest := by
                simp [checkTags, h1, he, hn, hpe, hle]
              rw [hx] at h
              exact ih m s2 h

/-! ### Diagnostic strings are pairwise distinguishable where needed -/

theorem dup_msg_ne_empty_msg (g : String) :
    "Git release tag already exists: " ++ g ≠
      "The unreleased notes file " ++ unreleasedFile ++
        " should not be empty" := by
  intro he
  have h1 : ("Git release tag already exists: " ++ g).data.head? =
      some 'G' := rfl
  have h3 : ("Git release tag already exists: " ++ g).data.head? =
      ("The unreleased notes file " ++ unreleasedFile ++
        " should not be empty").data.head? :=
    congrArg (fun x : String => x.data.head?) he
  rw [h1] at h3
  exact absurd h3 (by decide)

theorem not_greater_msg_ne_empty_msg (a b : String) :
    "New version " ++ a ++ " is not greater than existing tag " ++ b ≠
      "The unreleased notes file " ++ unreleasedFile ++
        " should not be empty" := by
  intro he
  have h1 : ("New version " ++ a ++
      " is not greater than existing tag " ++ b).data.head? = some 'N' := rfl
  have h3 : ("New version " ++ a ++
      " is not greater than existing tag " ++ b).data.head? =
      ("The unreleased notes file " ++ unreleasedFile ++
        " should not be empty").data.head? :=
    congrArg (fun x : String => x.data.head?) he
  rw [h1] at h3
  exact absurd h3 (by decide)

/-! ### The not-greater exit -/

theorem verify_exit_not_greater (nv : String) (s : GitState) (content : String)
    (hd : is_dirty s = false)
    (hu : fsLookup s.tree unreleasedFile = some content)
    (h1 : content ≠ "") (h2 : content ≠ UNRELEASED_EMPTY)
    (t : String × Nat) (rest : List (String × Nat))
    (htags : s.tags = t :: rest) (hne : "v" ++ nv ≠ t.1)
    (es : String) (pn pe : PyVersion)
    (hsuf : existingVersionOf t.1 = some es)
    (hn : pyParse nv = some pn) (hpe : pyParse es = some pe)
    (hle : pyLe pn pe = true) :
    verify_new_version_number nv s =
      .exit ("New version " ++ nv ++
        " is not greater than existing tag " ++ t.1) s := by
  simp only [verify_new_version_number, hd, Bool.false_eq_true, if_false, hu]
  rw [if_neg (by simp [h1, h2]), htags]
  simp [checkTags, hne, hsuf, hn, hpe, hle]

/-! ### Claim C1 -/

/-- Claim C1 as stated is false: this repository state satisfies every
precondition the claim lists (clean tree, valid unreleased notes, no tag
`v1.1.0`, `1.1.0` greater than the only existing tag version `1.0.0`), yet
the run aborts with a RuntimeError because `release_notes/1.1.0.rst`
already exists in the working tree, and no commit or tag is created. -/
theorem c1_counterexample :
    is_dirty strayFileRepo = false ∧
    fsLookup strayFileRepo.tree unreleasedFile = some "Fixed a bug.\n" ∧
    memB ("v" ++ "1.1.0") (tagNames strayFileRepo) = false ∧
    pyParse "1.1.0" = some ⟨[1, 1, 0], none⟩ ∧
    pyParse "1.0.0" = some ⟨[1, 0, 0], none⟩ ∧
    pyCmp ⟨[1, 1, 0], none⟩ ⟨[1, 0, 0], none⟩ = .gt ∧
    main "1.1.0" strayFileRepo =
      .err ("Release notes already exist: " ++ versionFile "1.1.0")
        strayFileRepo := by
  refine ⟨by decide, by decide, by decide, by decide, by decide, by decide,
    by decide⟩

/-- Claim C1 (amended with the precondition the counterexample forces:
`release_notes/<V>.rst` must not already exist): under the claim's
preconditions a run of the tool succeeds, creates `<V>.rst` holding exactly
the prior unreleased content, resets the unreleased file to exactly the
placeholder, appends exactly one commit with message `Release version <V>`,
and appends exactly one tag `v<V>` pointing at that new commit (the commit
at index `s.commits.length` of the new commit list). -/
theorem c1_release_success (V : String) (s : GitState) (content : String)
    (pv : PyVersion)
    (hclean : is_dirty s = false)
    (hnotes : fsLookup s.tree unreleasedFile = some content)
    (hne1 : content ≠ "") (hne2 : content ≠ UNRELEASED_EMPTY)
    (hparse : pyParse V = some pv)
    (hgreater : ∀ t ∈ s.tags, tagPasses pv ("v" ++ V) t)
    (hnofile : fsLookup s.tree (versionFile V) = none) :
    ∃ s2, main V s = .ok () s2 ∧
      fsLookup s2.tree (versionFile V) = some content ∧
      fsLookup s2.tree unreleasedFile = some UNRELEASED_EMPTY ∧
      s2.commits = s.commits ++ ["Release version " ++ V] ∧
      s2.tags = s.tags ++ [("v" ++ V, s.commits.length)] := by
  have hne := versionFile_ne_unreleased V s content hnofile hnotes
  refine ⟨releasedState V content s,
    main_ok V s content pv hclean hnotes hne1 hne2 hparse hgreater hnofile,
    ?_, ?_, rfl, rfl⟩
  · simp only [releasedState, movedState]
    rw [fsLookup_fsSet_ne _ _ _ _ hne]
    exact fsLookup_fsSet_self _ _ _
  · simp only [releasedState, movedState]
    exact fsLookup_fsSet_self _ _ _

/-- Witness for claim C1's amended theorem at a concrete repository. -/
theorem c1_release_success_witness :
    ∃ s2, main "1.1.0" demoRepo = .ok () s2 ∧
      fsLookup s2.tree (versionFile "1.1.0") = some "Fixed a bug.\n" ∧
      fsLookup s2.tree unreleasedFile = some UNRELEASED_EMPTY ∧
      s2.commits = demoRepo.commits ++ ["Release version " ++ "1.1.0"] ∧
      s2.tags = demoRepo.tags ++ [("v" ++ "1.1.0", demoRepo.commits.length)] :=
  c1_release_success "1.1.0" demoRepo "Fixed a bug.\n" ⟨[1, 1, 0], none⟩
    (by decide) (by decide) (by decide) (by decide) (by decide)
    (by
      intro t ht
      rw [show demoRepo.tags = [("v1.0.0", 0)] from rfl,
        List.mem_singleton] at ht
      subst ht
      exact ⟨by decide, "1.0.0", ⟨⟨[1, 0, 0], none⟩, by decide, by decide,
        by decide⟩⟩)
    (by decide)

/-! ### Claim C2 -/

/-- Claim C2 as stated is false at the pair `A = B = "1.0.0"` (whose
triples are equal, hence `A ≤ B`): the run terminates with the
duplicate-tag diagnostic, not a "version not greater" diagnostic. -/
theorem c2_counterexample :
    pyParse "1.0.0" = some ⟨[1, 0, 0], none⟩ ∧
    pyLe ⟨[1, 0, 0], none⟩ ⟨[1, 0, 0], none⟩ = true ∧
    main "1.0.0" demoRepo =
      .exit ("Git release tag already exists: " ++ ("v" ++ "1.0.0"))
        demoRepo ∧
    ("Git release tag already exists: " ++ ("v" ++ "1.0.0") ≠
      "New version " ++ "1.0.0" ++
        " is not greater than existing tag " ++ "v1.0.0") := by
  refine ⟨by decide, by decide, by decide, by decide⟩

/-- Claim C2 (amended as the counterexample forces: when the strings are
equal the failure is the duplicate-tag diagnostic): releasing `A` from an
otherwise-ready repository whose only tag is `vB`, with
`parse A <= parse B`, terminates the process (`Res.exit`, non-zero status)
without changing the state; the diagnostic is "version not greater" when
the derived tag differs from `vB`, and "duplicate tag" when `A` and `B`
coincide. -/
theorem c2_not_greater (A B : String) (s : GitState) (content : String)
    (k : Nat) (pa pb : PyVersion)
    (hclean : is_dirty s = false)
    (hnotes : fsLookup s.tree unreleasedFile = some content)
    (hne1 : content ≠ "") (hne2 : content ≠ UNRELEASED_EMPTY)
    (htags : s.tags = [("v" ++ B, k)])
    (hpa : pyParse A = some pa) (hpb : pyParse B = some pb)
    (hle : pyLe pa pb = true) :
    (("v" ++ A ≠ "v" ++ B) → existingVersionOf ("v" ++ B) = some B →
      main A s = .exit ("New version " ++ A ++
        " is not greater than existing tag " ++ ("v" ++ B)) s) ∧
    (("v" ++ A = "v" ++ B) →
      main A s =
        .exit ("Git release tag already exists: " ++ ("v" ++ A)) s) := by
  constructor
  · intro hne hsuf
    have hv := verify_exit_not_greater A s content hclean hnotes hne1 hne2
      ("v" ++ B, k) [] htags hne B pa pb hsuf hpa hpb hle
    simp only [main, hv]
  · intro he
    have hv := verify_exit_duplicate A s content hclean hnotes hne1 hne2
      pa hpa [] ("v" ++ B, k) [] htags he.symm (fun u hu => absurd hu
        (List.not_mem_nil u))
    simp only [main, hv]

/-- Witness for claim C2's amended theorem: releasing `1.0.0` while
`v1.2.0` is tagged exits with the "not greater" diagnostic. -/
theorem c2_not_greater_witness :
    main "1.0.0" { demoRepo with tags := [("v" ++ "1.2.0", 0)] } =
      .exit ("New version " ++ "1.0.0" ++
        " is not greater than existing tag " ++ ("v" ++ "1.2.0"))
        { demoRepo with tags := [("v" ++ "1.2.0", 0)] } :=
  (c2_not_greater "1.0.0" "1.2.0"
      { demoRepo with tags := [("v" ++ "1.2.0", 0)] } "Fixed a bug.\n" 0
      ⟨[1, 0, 0], none⟩ ⟨[1, 2, 0], none⟩
      (by decide) (by decide) (by decide) (by decide) rfl
      (by decide) (by decide) (by decide)).1 (by decide) (by decide)

/-! ### Claim C3 -/

/-- Claim C3 as stated is false: in this clean repository the tag set
contains the derived tag `v1.0.0`, yet the run fails with the "not
greater" diagnostic for the tag `v2.0.0` enumerated first, not with the
duplicate-tag diagnostic. -/
theorem c3_counterexample :
    memB ("v" ++ "1.0.0") (tagNames maskedDupRepo) = true ∧
    is_dirty maskedDupRepo = false ∧
    fsLookup maskedDupRepo.tree unreleasedFile = some "Fixed a bug.\n" ∧
    main "1.0.0" maskedDupRepo =
      .exit ("New version " ++ "1.0.0" ++
        " is not greater than existing tag " ++ "v2.0.0") maskedDupRepo ∧
    ("New version " ++ "1.0.0" ++
        " is not greater than existing tag " ++ "v2.0.0" ≠
      "Git release tag already exists: " ++ ("v" ++ "1.0.0")) := by
  refine ⟨by decide, by decide, by decide, by decide, by decide⟩

/-- Claim C3 (amended with the conditions the counterexample forces: the
working tree is clean, the unreleased notes pass the emptiness check, and
every tag enumerated before the duplicate passes the loop): releasing a
version whose derived tag already exists fails with the duplicate-tag
diagnostic, and the state — in particular the working tree — is exactly
the one the run started from. -/
theorem c3_duplicate_tag (V : String) (s : GitState) (content : String)
    (pv : PyVersion) (k : Nat) (l1 l2 : List (String × Nat))
    (hclean : is_dirty s = false)
    (hnotes : fsLookup s.tree unreleasedFile = some content)
    (hne1 : content ≠ "") (hne2 : content ≠ UNRELEASED_EMPTY)
    (hparse : pyParse V = some pv)
    (hsplit : s.tags = l1 ++ ("v" ++ V, k) :: l2)
    (hbefore : ∀ u ∈ l1, tagPasses pv ("v" ++ V) u) :
    main V s =
      .exit ("Git release tag already exists: " ++ ("v" ++ V)) s := by
  have hv := verify_exit_duplicate V s content hclean hnotes hne1 hne2
    pv hparse l1 ("v" ++ V, k) l2 hsplit rfl hbefore
  simp only [main, hv]

/-- Witness for claim C3's amended theorem at a concrete repository. -/
theorem c3_duplicate_tag_witness :
    main "1.0.0" demoRepo =
      .exit ("Git release tag already exists: " ++ ("v" ++ "1.0.0"))
        demoRepo :=
  c3_duplicate_tag "1.0.0" demoRepo "Fixed a bug.\n" ⟨[1, 0, 0], none⟩ 0
    [] [] (by decide) (by decide) (by decide) (by decide) (by decide) rfl
    (fun u hu => absurd hu (List.not_mem_nil u))

/-! ### Claim C4 -/

/-- Claim C4 as stated is false: in this repository the unreleased notes
file is empty, yet because the working tree is also dirty the run fails
with the dirty-repository diagnostic, not the empty-release-notes one. -/
theorem c4_counterexample :
    fsLookup dirtyEmptyRepo.tree unreleasedFile = some "" ∧
    main "1.1.0" dirtyEmptyRepo =
      .exit "Must make release from clean repo" dirtyEmptyRepo ∧
    ("Must make release from clean repo" ≠
      "The unreleased notes file " ++ unreleasedFile ++
        " should not be empty") := by
  refine ⟨by decide, by decide, by decide⟩

/-- Claim C4 (amended with the condition the counterexample forces: the
working tree is clean): when the unreleased notes are empty or equal the
placeholder, the run exits with the empty-release-notes diagnostic in the
unchanged starting state (so before any file is moved); conversely any
other content passes this check — the verification step can never produce
the empty-release-notes exit. -/
theorem c4_empty_notes (V : String) (s : GitState) (content : String)
    (hclean : is_dirty s = false)
    (hnotes : fsLookup s.tree unreleasedFile = some content) :
    ((content = "" ∨ content = UNRELEASED_EMPTY) →
      main V s = .exit ("The unreleased notes file " ++ unreleasedFile ++
        " should not be empty") s) ∧
    (content ≠ "" → content ≠ UNRELEASED_EMPTY →
      ∀ s2, verify_new_version_number V s ≠
        .exit ("The unreleased notes file " ++ unreleasedFile ++
          " should not be empty") s2) := by
  constructor
  · intro hc
    have hv := verify_exit_empty V s content hclean hnotes hc
    simp only [main, hv]
  · intro h1 h2 s2 he
    have hred : verify_new_version_number V s =
        match checkTags V ("v" ++ V) s s.tags with
        | .ok _ s1 => .ok ("v" ++ V) s1
        | .exit m s1 => .exit m s1
        | .err m s1 => .err m s1 := by
      simp only [verify_new_version_number, hclean, Bool.false_eq_true,
        if_false, hnotes]
      rw [if_neg (by simp [h1, h2])]
    rw [hred] at he
    rcases checkTags_shape V ("v" ++ V) s s.tags with hx | ⟨m, hx⟩ | ⟨m, hx⟩ <;>
      rw [hx] at he
    · exact Res.noConfusion he
    · injection he with hm hs
      rcases checkTags_exit_msg V ("v" ++ V) s s.tags m s hx with hdup | ⟨t, hng⟩
      · exact dup_msg_ne_empty_msg ("v" ++ V) (hdup ▸ hm)
      · exact not_greater_msg_ne_empty_msg V t (hng ▸ hm)
    · exact Res.noConfusion he

/-- Witness for claim C4's amended theorem: a clean repository with empty
unreleased notes exits with the empty-release-notes diagnostic. -/
theorem c4_empty_notes_witness :
    main "1.1.0" { demoRepo with
        tree := [("unreleased.rst", "")]
        index := [("unreleased.rst", "")]
        head := [("unreleased.rst", "")] } =
      .exit ("The unreleased notes file " ++ unreleasedFile ++
        " should not be empty")
        { demoRepo with
          tree := [("unreleased.rst", "")]
          index := [("unreleased.rst", "")]
          head := [("unreleased.rst", "")] } :=
  (c4_empty_notes "1.1.0"
      { demoRepo with
        tree := [("unreleased.rst", "")]
        index := [("unreleased.rst", "")]
        head := [("unreleased.rst", "")] } ""
      (by decide) (by decide)).1 (Or.inl rfl)

/-! ### Claim C5 -/

/-- Claim C5 as stated is false: after a successful release of `1.1.0`,
running the tool again with the same version fails with the
empty-release-notes diagnostic (the release reset `unreleased.rst` to the
placeholder), which is neither the duplicate-tag nor the
release-notes-already-exist diagnostic the claim names. -/
theorem c5_counterexample :
    main "1.1.0" demoRepo =
      .ok () (releasedState "1.1.0" "Fixed a bug.\n" demoRepo) ∧
    main "1.1.0" (releasedState "1.1.0" "Fixed a bug.\n" demoRepo) =
      .exit ("The unreleased notes file " ++ unreleasedFile ++
        " should not be empty")
        (releasedState "1.1.0" "Fixed a bug.\n" demoRepo) ∧
    ("The unreleased notes file " ++ unreleasedFile ++
        " should not be empty" ≠
      "Git release tag already exists: " ++ ("v" ++ "1.1.0")) ∧
    ("The unreleased notes file " ++ unreleasedFile ++
        " should not be empty" ≠
      "Release notes already exist: " ++ versionFile "1.1.0") := by
  refine ⟨by decide, by decide, by decide, by decide⟩

/-- Claim C5 (amended with the diagnostic the counterexample forces):
after any successful run, a second run with the same version exits with
the empty-release-notes diagnostic, in the unchanged post-release state —
so it creates no additional commits and no additional tags. -/
theorem c5_second_run (V : String) (s s2 : GitState)
    (hfirst : main V s = .ok () s2) :
    main V s2 = .exit ("The unreleased notes file " ++ unreleasedFile ++
      " should not be empty") s2 ∧
    (main V s2).state.commits = s2.commits ∧
    (main V s2).state.tags = s2.tags := by
  have h := second_run_exits_empty V s s2 hfirst
  exact ⟨h, by rw [h]; rfl, by rw [h]; rfl⟩

/-- Witness for claim C5's amended theorem after a concrete release. -/
theorem c5_second_run_witness :
    main "1.1.0" (releasedState "1.1.0" "Fixed a bug.\n" demoRepo) =
      .exit ("The unreleased notes file " ++ unreleasedFile ++
        " should not be empty")
        (releasedState "1.1.0" "Fixed a bug.\n" demoRepo) :=
  (c5_second_run "1.1.0" demoRepo
    (releasedState "1.1.0" "Fixed a bug.\n" demoRepo) (by decide)).1

/-! ### Claim C6 -/

/-- Claim C6 as stated is false: the code uses Python `split("v")[1]`,
which splits at every `v`, so the suffix `1v2` does not round-trip —
`"v" ++ "1v2"` is parsed back to `"1"`, not `"1v2"`. -/
theorem c6_counterexample :
    existingVersionOf ("v" ++ "1v2") ≠ some "1v2" ∧
    existingVersionOf ("v" ++ "1v2") = some "1" := by
  refine ⟨by decide, by decide⟩

/-- Claim C6 (amended with the restriction the counterexample forces: the
suffix must itself contain no `v`): for every such suffix, the tag name
`v` + suffix is parsed back by the code's `split("v")[1]` to exactly the
suffix. -/
theorem c6_strip_v (sfx : String) (h : 'v' ∉ sfx.data) :
    existingVersionOf ("v" ++ sfx) = some sfx :=
  existingVersionOf_append sfx h

/-- Witness for claim C6's amended theorem at a concrete suffix. -/
theorem c6_strip_v_witness :
    'v' ∉ "1.0.0".data ∧ existingVersionOf ("v" ++ "1.0.0") = some "1.0.0" :=
  ⟨by decide, c6_strip_v "1.0.0" (by decide)⟩

/-! ### Claim C7 -/

/-- Claim C7 (confirmed): the verify-new-version-number operation has no
side effects — whichever way it ends (success, `sys.exit` diagnostic, or
exception) the resulting outcome carries exactly the starting repository
state (same working tree, index, HEAD, commits, tags, hence same
release-notes files), and on success it returns exactly the derived tag
name `"v" ++ version`. -/
theorem c7_verify_no_side_effects (V : String) (s : GitState) :
    verify_new_version_number V s = .ok ("v" ++ V) s ∨
      (∃ m, verify_new_version_number V s = .exit m s) ∨
      (∃ m, verify_new_version_number V s = .err m s) :=
  verify_shape V s

/-! ### Claim C8 -/

/-- Claim C8 (confirmed): `move_release_notes` fails fatally with the
"release notes already exist" diagnostic, with the state unchanged
(before any mutation), whenever the versioned notes file exists; and
whenever it succeeds it performs no commit — commits, tags and HEAD are
unchanged — and has only moved the unreleased file to the versioned name,
recreated the unreleased file with exactly the placeholder, and staged
both files into the index. -/
theorem c8_move_release_notes_frame (V : String) (s : GitState) :
    ((fsLookup s.tree (versionFile V)).isSome = true →
      move_release_notes V s =
        .err ("Release notes already exist: " ++ versionFile V) s) ∧
    (∀ s2, move_release_notes V s = .ok () s2 →
      ∃ content, fsLookup s.tree unreleasedFile = some content ∧
        s2.commits = s.commits ∧ s2.tags = s.tags ∧ s2.head = s.head ∧
        fsLookup s2.tree (versionFile V) = some content ∧
        fsLookup s2.tree unreleasedFile = some UNRELEASED_EMPTY ∧
        fsLookup s2.index (versionFile V) = some content ∧
        fsLookup s2.index unreleasedFile = some UNRELEASED_EMPTY) := by
  refine ⟨move_exists_err V s, ?_⟩
  intro s2 h
  obtain ⟨c, hv2, hu, hs2⟩ := move_ok_inv V s s2 h
  have hne := versionFile_ne_unreleased V s c hv2 hu
  subst hs2
  refine ⟨c, hu, rfl, rfl, rfl, ?_, ?_, ?_, ?_⟩
  · simp only [movedState]
    rw [fsLookup_fsSet_ne _ _ _ _ hne]
    exact fsLookup_fsSet_self _ _ _
  · simp only [movedState]
    exact fsLookup_fsSet_self _ _ _
  · simp only [movedState]
    exact fsLookup_fsSet_self _ _ _
  · simp only [movedState]
    rw [fsLookup_fsSet_ne _ _ _ _ (Ne.symm hne)]
    exact fsLookup_fsSet_self _ _ _

/-- Witness for claim C8's theorem: a stale versioned file triggers the
fatal "release notes already exist" error with the state unchanged. -/
theorem c8_move_release_notes_frame_witness :
    move_release_notes "1.1.0" strayFileRepo =
      .err ("Release notes already exist: " ++ versionFile "1.1.0")
        strayFileRepo :=
  (c8_move_release_notes_frame "1.1.0" strayFileRepo).1 (by decide)

/-! ### Claim C9 -/

/-- Claim C9 (confirmed): `commit_and_tag_release` first creates the
commit (from the staged index, with message `Release version <version>`,
reaching `commitState`), then checks cleanliness and exits "Git commit
failed" — with the commit in place and the tag set untouched — if the
tree is still dirty; only then does it create the tag (pointing at the
newest commit) and verify the tag's presence; and every outcome, failure
or success, carries a state whose commit list is exactly the original
plus the one release commit — no rollback ever happens. -/
theorem c9_commit_and_tag_order (V g : String) (s : GitState) :
    (is_dirty (commitState V s) = true →
      commit_and_tag_release V g s =
        .exit "Git commit failed" (commitState V s)) ∧
    (is_dirty (commitState V s) = false → memB g (tagNames s) = true →
      commit_and_tag_release V g s =
        .err ("GitCommandError: tag " ++ g ++ " already exists")
          (commitState V s)) ∧
    (is_dirty (commitState V s) = false → memB g (tagNames s) = false →
      commit_and_tag_release V g s =
        .ok () { commitState V s with
          tags := s.tags ++ [(g, s.commits.length)] } ∧
        memB g (tagNames ((commit_and_tag_release V g s).state)) = true) ∧
    ((commit_and_tag_release V g s).state.commits =
      s.commits ++ ["Release version " ++ V]) :=
  commit_and_tag_cases V g s

/-- Witness for claim C9's theorem on a concrete staged repository. -/
theorem c9_commit_and_tag_order_witness :
    commit_and_tag_release "1.1.0" "v1.1.0"
        (movedState "1.1.0" "Fixed a bug.\n" demoRepo) =
      .ok () { commitState "1.1.0"
          (movedState "1.1.0" "Fixed a bug.\n" demoRepo) with
        tags := (movedState "1.1.0" "Fixed a bug.\n" demoRepo).tags ++
          [("v1.1.0",
            (movedState "1.1.0" "Fixed a bug.\n" demoRepo).commits.length)] } ∧
    memB "v1.1.0" (tagNames ((commit_and_tag_release "1.1.0" "v1.1.0"
      (movedState "1.1.0" "Fixed a bug.\n" demoRepo)).state)) = true :=
  (c9_commit_and_tag_order "1.1.0" "v1.1.0"
    (movedState "1.1.0" "Fixed a bug.\n" demoRepo)).2.2.1
    (by decide) (by decide)

/-! ### Claim C10 -/

/-- Claim C10 (confirmed): the tool never validates the shape of the
version argument.  For every string `V` — not only well-formed
`MAJOR.MINOR.PATCH` triples — if the repository preconditions hold and
`V` parses as a version strictly greater than every existing tag's
suffix, the release proceeds, and `V` is used verbatim in the appended
tag name (`"v" ++ V`), the created file name (`V ++ ".rst"`), and the
commit message (`"Release version " ++ V`). -/
theorem c10_no_shape_validation (V : String) (s : GitState)
    (content : String) (pv : PyVersion)
    (hclean : is_dirty s = false)
    (hnotes : fsLookup s.tree unreleasedFile = some content)
    (hne1 : content ≠ "") (hne2 : content ≠ UNRELEASED_EMPTY)
    (hparse : pyParse V = some pv)
    (hgreater : ∀ t ∈ s.tags, tagPasses pv ("v" ++ V) t)
    (hnofile : fsLookup s.tree (versionFile V) = none) :
    main V s = .ok () (releasedState V content s) ∧
    (releasedState V content s).tags =
      s.tags ++ [("v" ++ V, s.commits.length)] ∧
    (releasedState V content s).commits =
      s.commits ++ ["Release version " ++ V] ∧
    fsLookup (releasedState V content s).tree (versionFile V) =
      some content := by
  have hne := versionFile_ne_unreleased V s content hnofile hnotes
  refine ⟨main_ok V s content pv hclean hnotes hne1 hne2 hparse hgreater
    hnofile, rfl, rfl, ?_⟩
  simp only [releasedState, movedState]
  rw [fsLookup_fsSet_ne _ _ _ _ hne]
  exact fsLookup_fsSet_self _ _ _

/-- Witness for claim C10's theorem with the two-component version string
`"1.3"`, which is not a `MAJOR.MINOR.PATCH` triple yet releases fine. -/
theorem c10_no_shape_validation_witness :
    main "1.3" demoRepo =
      .ok () (releasedState "1.3" "Fixed a bug.\n" demoRepo) ∧
    (releasedState "1.3" "Fixed a bug.\n" demoRepo).tags =
      demoRepo.tags ++ [("v" ++ "1.3", demoRepo.commits.length)] ∧
    (releasedState "1.3" "Fixed a bug.\n" demoRepo).commits =
      demoRepo.commits ++ ["Release version " ++ "1.3"] ∧
    fsLookup (releasedState "1.3" "Fixed a bug.\n" demoRepo).tree
      (versionFile "1.3") = some "Fixed a bug.\n" :=
  c10_no_shape_validation "1.3" demoRepo "Fixed a bug.\n" ⟨[1, 3], none⟩
    (by decide) (by decide) (by decide) (by decide) (by decide)
    (by
      intro t ht
      rw [show demoRepo.tags = [("v1.0.0", 0)] from rfl,
        List.mem_singleton] at ht
      subst ht
      exact ⟨by decide, "1.0.0", ⟨⟨[1, 0, 0], none⟩, by decide, by decide,
        by decide⟩⟩)
    (by decide)

end TagRelease
